import Mathlib

/-!
Shallow embedding of the Pi Sensor Dashboard backend (Python) and proofs about it.

Conventions of the embedding:
- float values are modelled as rationals (`ℚ`); Python `round(v, n)` is modelled by
  `round_to` (rounding to `n` decimal digits); timestamps are abstract `Nat` ticks
  coming from a monotone clock;
- Python dicts are association lists `List (String × α)` looked up with
  `List.lookup`; insertion of a fresh key appends, deletion filters the key out,
  in-place mutation of a stored object maps over the list;
- fallible Python operations return `Except`; outcomes of operations whose success
  depends on the environment (dynamic imports, hardware construction, awaited
  driver calls) are supplied by explicit environment records;
- the waveform/noise math of the simulated drivers is out of scope (per the design
  document); the raw pre-clamp generated value is an input to `dummy_read`.
-/

namespace PiSensor

/-- Python dict lookup on an association-list model. -/
def alist_lookup {α : Type} : List (String × α) → String → Option α
  | [], _ => none
  | p :: rest, k => if p.1 = k then some p.2 else alist_lookup rest k

/-- Dict value update at an existing key (in-place mutation of the stored
object). -/
def alist_update {α : Type} (m : List (String × α)) (k : String) (v : α) :
    List (String × α) :=
  m.map (fun p => if p.1 = k then (k, v) else p)

/-- Dict entry deletion (`del m[k]`). -/
def alist_erase {α : Type} (m : List (String × α)) (k : String) :
    List (String × α) :=
  m.filter (fun p => decide (p.1 ≠ k))

/-- Sensor measurement kinds (`sensor_base.SensorType`). -/
inductive SensorType
  | temperature
  | humidity
  | pressure
  | light
  | analog
  | digital
  | motion
  | distance
  | custom
deriving DecidableEq, Repr

/-- One measurement entity of a sensor (`sensor_base.SensorEntity`). -/
structure SensorEntity where
  id : String
  name : String
  unit : String
  sensor_type : SensorType
  min_value : Option ℚ := none
  max_value : Option ℚ := none
  precision : Nat := 2
deriving DecidableEq, Repr

/-- A single sensor reading (`sensor_base.SensorReading`); the timestamp field is
omitted because no claim observes it. -/
structure SensorReading where
  entity_id : String
  value : ℚ
  quality : ℚ := 1
deriving DecidableEq, Repr

/-- Sensor configuration (`sensor_base.SensorConfig`); connection parameters are
string key/value pairs, calibration an optional map of per-key rationals. -/
structure SensorConfig where
  name : String
  driver : String
  connection_params : List (String × String) := []
  poll_interval : ℚ := 1
  enabled : Bool := true
  calibration : Option (List (String × ℚ)) := none
deriving DecidableEq, Repr

/-- `BaseSensor.apply_calibration`: with no calibration map (Python `None` or the
falsy empty dict) the value passes through unchanged; otherwise the per-entity
multiplier is applied first and the offset added afterwards:
`(value * multiplier) + offset`. -/
def apply_calibration (config : SensorConfig) (value : ℚ) (entity_id : String) : ℚ :=
  match config.calibration with
  | none => value
  | some cal =>
    if cal.isEmpty then value
    else
      let offset := (alist_lookup cal (entity_id ++ "_offset")).getD 0
      let multiplier := (alist_lookup cal (entity_id ++ "_multiplier")).getD 1
      value * multiplier + offset

/-- `BaseSensor.validate_reading`: look the entity up among the sensor's entities;
fail when absent, when below a defined minimum, or when above a defined maximum. -/
def validate_reading (entities : List SensorEntity) (reading : SensorReading) : Bool :=
  match entities.find? (fun e => e.id == reading.entity_id) with
  | none => false
  | some entity =>
    let below_min : Bool := match entity.min_value with
      | some m => decide (reading.value < m)
      | none => false
    let above_max : Bool := match entity.max_value with
      | some m => decide (m < reading.value)
      | none => false
    !below_min && !above_max

/-- The clamping step at the end of `DummySensorDriver._generate_realistic_value`
(the lines under the comment `Clamp to valid range`). -/
def clamp_to_entity_range (entity : SensorEntity) (value : ℚ) : ℚ :=
  let v1 := match entity.min_value with
    | some m => max value m
    | none => value
  match entity.max_value with
  | some m => min v1 m
  | none => v1

/-- Python `round(value, ndigits)` on the rational model (tie-breaking differences
between bankers rounding and `round` on `ℚ` are never exercised by the theorems
below, which only evaluate it at exact points). -/
def round_to (ndigits : Nat) (value : ℚ) : ℚ :=
  (round (value * (10 : ℚ) ^ ndigits) : ℚ) / (10 : ℚ) ^ ndigits

/-- Entity table built by `DummySensorDriver.initialize` for a given configured
sensor model. -/
def dummy_entities (sensor_name : String) (sensor_model : String) : List SensorEntity :=
  if sensor_model = "DHT22" ∨ sensor_model = "DHT11" then
    [ { id := sensor_name ++ "_temperature", name := "Temperature", unit := "°C",
        sensor_type := .temperature, min_value := some (-40), max_value := some 80,
        precision := 1 },
      { id := sensor_name ++ "_humidity", name := "Humidity", unit := "%",
        sensor_type := .humidity, min_value := some 0, max_value := some 100,
        precision := 1 } ]
  else if sensor_model = "BMP280" then
    [ { id := sensor_name ++ "_temperature", name := "Temperature", unit := "°C",
        sensor_type := .temperature, min_value := some (-40), max_value := some 85,
        precision := 2 },
      { id := sensor_name ++ "_pressure", name := "Pressure", unit := "hPa",
        sensor_type := .pressure, min_value := some 300, max_value := some 1100,
        precision := 1 } ]
  else if sensor_model = "BME280" then
    [ { id := sensor_name ++ "_temperature", name := "Temperature", unit := "°C",
        sensor_type := .temperature, min_value := some (-40), max_value := some 85,
        precision := 2 },
      { id := sensor_name ++ "_pressure", name := "Pressure", unit := "hPa",
        sensor_type := .pressure, min_value := some 300, max_value := some 1100,
        precision := 1 },
      { id := sensor_name ++ "_humidity", name := "Humidity", unit := "%",
        sensor_type := .humidity, min_value := some 0, max_value := some 100,
        precision := 1 } ]
  else if sensor_model = "ADS1115" then
    [ { id := sensor_name ++ "_channel_0", name := "Channel 0", unit := "V",
        sensor_type := .analog, min_value := some 0, max_value := some 5, precision := 3 },
      { id := sensor_name ++ "_channel_1", name := "Channel 1", unit := "V",
        sensor_type := .analog, min_value := some 0, max_value := some 5, precision := 3 },
      { id := sensor_name ++ "_channel_2", name := "Channel 2", unit := "V",
        sensor_type := .analog, min_value := some 0, max_value := some 5, precision := 3 },
      { id := sensor_name ++ "_channel_3", name := "Channel 3", unit := "V",
        sensor_type := .analog, min_value := some 0, max_value := some 5, precision := 3 } ]
  else if sensor_model = "Analog" then
    [ { id := sensor_name ++ "_value", name := "Analog Value", unit := "V",
        sensor_type := .analog, min_value := some 0, max_value := some (33/10),
        precision := 3 } ]
  else
    [ { id := sensor_name ++ "_value", name := "Value", unit := "",
        sensor_type := .custom, min_value := some 0, max_value := some 100,
        precision := 2 } ]

/-- Errors a sensor `read()` can propagate to its caller. -/
inductive ReadError
  | not_connected
  | non_runtime_failure
deriving DecidableEq, Repr

/-- `DummySensorDriver.read` body, per entity: generate a raw value (`raw`, the
waveform+noise sum, out of scope), clamp it to the entity range inside
`_generate_realistic_value`, apply calibration, round to the entity precision, and
attach the simulated quality (`quality`).  Every entity yields a reading; none is
validated or dropped. -/
def dummy_read_batch (config : SensorConfig) (entities : List SensorEntity)
    (raw : String → ℚ) (quality : String → ℚ) : List SensorReading :=
  entities.map (fun entity =>
    { entity_id := entity.id
      value := round_to entity.precision
        (apply_calibration config (clamp_to_entity_range entity (raw entity.id)) entity.id)
      quality := quality entity.id })

/-- `DummySensorDriver.read`: raises when not connected, otherwise returns the
full batch. -/
def dummy_read (is_connected : Bool) (config : SensorConfig) (entities : List SensorEntity)
    (raw : String → ℚ) (quality : String → ℚ) : Except ReadError (List SensorReading) :=
  if !is_connected then .error .not_connected
  else .ok (dummy_read_batch config entities raw quality)

/-- Entity table built by `DHT22Driver.initialize` (TEMP and HUMID spec bounds). -/
def dht22_entities (sensor_name : String) : List SensorEntity :=
  [ { id := sensor_name ++ "_temperature", name := "Temperature", unit := "°C",
      sensor_type := .temperature, min_value := some (-40), max_value := some 80,
      precision := 1 },
    { id := sensor_name ++ "_humidity", name := "Humidity", unit := "%",
      sensor_type := .humidity, min_value := some 0, max_value := some 100,
      precision := 1 } ]

/-- Outcome of accessing the underlying `adafruit_dht` device properties. -/
inductive DhtDevice
  | values (temperature humidity : Option ℚ)
  | raise_runtime
  | raise_other
deriving DecidableEq, Repr

/-- The readings `DHT22Driver.read` substitutes on a transient (RuntimeError)
failure: one per entity, value 0.0, quality 0.0. -/
def dht22_fallback_readings (config : SensorConfig) : List SensorReading :=
  [ { entity_id := config.name ++ "_temperature", value := 0, quality := 0 },
    { entity_id := config.name ++ "_humidity", value := 0, quality := 0 } ]

/-- `DHT22Driver.read`: raises RuntimeError before the try block when not
connected; inside the try block a device RuntimeError or a `None` value (which
itself raises RuntimeError) is caught and mapped to the zero-value, zero-quality
fallback batch; a successful device read is calibrated, rounded, and then
bounds-validated - readings failing `validate_reading` are dropped.  Any other
exception propagates.  (The minimum-read-interval sleep only affects timing, not
the returned batch, and is not modelled.) -/
def dht22_read (is_connected : Bool) (config : SensorConfig)
    (entities : List SensorEntity) (device : DhtDevice) :
    Except ReadError (List SensorReading) :=
  if !is_connected then .error .not_connected
  else
    match device with
    | .raise_other => .error .non_runtime_failure
    | .raise_runtime => .ok (dht22_fallback_readings config)
    | .values temperature humidity =>
      match temperature, humidity with
      | some t, some h =>
        let t1 := apply_calibration config t (config.name ++ "_temperature")
        let h1 := apply_calibration config h (config.name ++ "_humidity")
        let readings : List SensorReading :=
          [ { entity_id := config.name ++ "_temperature", value := round_to 1 t1,
              quality := 1 },
            { entity_id := config.name ++ "_humidity", value := round_to 1 h1,
              quality := 1 } ]
        .ok (readings.filter (fun r => validate_reading entities r))
      | _, _ => .ok (dht22_fallback_readings config)

/-- Environment under which `DriverFactory` resolves drivers: the dummy-mode
configuration flag, the host platform, and which dynamic import + construction
attempts succeed. -/
structure FactoryEnv where
  use_dummy_drivers : Bool
  platform_win32 : Bool
  real_sensor_constructs : String → Bool
  specific_dummy_constructs : String → Bool

/-- `DriverFactory.should_use_dummy`: explicit configuration, else Windows
platform detection, else real drivers. -/
def should_use_dummy (env : FactoryEnv) : Bool :=
  env.use_dummy_drivers || env.platform_win32

/-- `DriverFactory._SENSOR_DRIVERS`: driver name → real driver class path. -/
def sensor_driver_map : List (String × String) :=
  [ ("DHT22", "app.sensors.dht22_driver.DHT22Driver"),
    ("DHT11", "app.sensors.dht22_driver.DHT22Driver"),
    ("BMP280", "app.sensors.bmp280_driver.BMP280Driver"),
    ("BME280", "app.sensors.bmp280_driver.BMP280Driver"),
    ("ADS1115", "app.sensors.ads1115_driver.ADS1115Driver"),
    ("Analog", "app.sensors.analog_driver.AnalogDriver") ]

/-- The `dummy_drivers` map inside `DriverFactory._create_dummy_sensor`:
driver name → specific dummy driver class path. -/
def specific_dummy_map : List (String × String) :=
  [ ("DHT22", "app.sensors.dht22_dummy_driver.DHT22DummyDriver"),
    ("DHT11", "app.sensors.dht22_dummy_driver.DHT22DummyDriver"),
    ("BMP280", "app.sensors.bmp280_dummy_driver.BMP280DummyDriver"),
    ("BME280", "app.sensors.bmp280_dummy_driver.BMP280DummyDriver") ]

/-- A constructed sensor driver instance, identified by which class was built. -/
inductive SensorInstance
  | real (class_path : String)
  | specific_dummy (class_path : String)
  | generic_dummy (sensor_model : String)
deriving DecidableEq, Repr

/-- Exceptions escaping a construction attempt. -/
inductive FactoryError
  | construction_failed (class_path : String)
deriving DecidableEq, Repr

/-- The sensor model the generic `DummySensorDriver` ends up with: the
`sensor_model` connection parameter, which `_create_dummy_sensor` sets to
`config.driver` when absent. -/
def generic_sensor_model (config : SensorConfig) : String :=
  (alist_lookup config.connection_params "sensor_model").getD config.driver

/-- `DriverFactory._create_dummy_sensor`: a mapped specific dummy driver is
attempted inside a try/except; on failure (or when unmapped) the generic
`DummySensorDriver` is constructed.  The generic constructor only stores the
config and reads `connection_params`, so it cannot raise: this function is
total. -/
def create_dummy_sensor (env : FactoryEnv) (config : SensorConfig) : SensorInstance :=
  match alist_lookup specific_dummy_map config.driver with
  | some driver_path =>
    if env.specific_dummy_constructs driver_path then .specific_dummy driver_path
    else .generic_dummy (generic_sensor_model config)
  | none => .generic_dummy (generic_sensor_model config)

/-- The import + instantiation of a real driver class inside the try block of
`DriverFactory.create_sensor`; may raise. -/
def attempt_real_sensor (env : FactoryEnv) (class_path : String) :
    Except FactoryError SensorInstance :=
  if env.real_sensor_constructs class_path then .ok (.real class_path)
  else .error (.construction_failed class_path)

/-- `DriverFactory.create_sensor`: forced dummy mode goes straight to the dummy
path; an unknown driver name goes to the dummy path; a raising real construction
is caught (both `except ImportError` and `except Exception`) and falls back to
the dummy path. -/
def create_sensor (env : FactoryEnv) (config : SensorConfig) :
    Except FactoryError SensorInstance :=
  if should_use_dummy env then .ok (create_dummy_sensor env config)
  else
    match alist_lookup sensor_driver_map config.driver with
    | none => .ok (create_dummy_sensor env config)
    | some class_path =>
      match attempt_real_sensor env class_path with
      | .ok inst => .ok inst
      | .error _ => .ok (create_dummy_sensor env config)

/-- Measurement session status (`sensor_manager.MeasurementStatus`). -/
inductive MeasurementStatus
  | idle
  | starting
  | running
  | paused
  | stopping
  | completed
  | error
deriving DecidableEq, Repr

/-- A measurement session (`sensor_manager.MeasurementSession`); `has_task`
records whether `_task` is set (a task was created for it). -/
structure MeasurementSession where
  session_id : String
  sensor_ids : List String
  interval : ℚ := 1
  duration : Option ℚ := none
  status : MeasurementStatus := .idle
  start_time : Option Nat := none
  end_time : Option Nat := none
  readings_count : Nat := 0
  error_count : Nat := 0
  has_task : Bool := false
deriving DecidableEq, Repr

/-- `SensorManager` state: the board, the keyed sensor registry (a registered
sensor is identified by the config it was built from), the session map, and the
initialization flag.  The single `asyncio.Lock` is modelled at the call sites
that take it. -/
structure ManagerState where
  board_present : Bool := false
  sensors : List (String × SensorConfig) := []
  sessions : List (String × MeasurementSession) := []
  is_initialized : Bool := false
deriving DecidableEq, Repr

/-- Environment outcomes for the awaited driver calls inside
`SensorManager.add_sensor`. -/
structure AddSensorEnv where
  construct_ok : Bool
  initialize_ok : Bool
  connect_ok : Bool

/-- The `driver_map` local to `SensorManager.add_sensor` (distinct from the
`DriverFactory` maps: it keys on class names). -/
def manager_driver_map : List (String × String) :=
  [ ("DHT22Driver", "app.sensors.dht22_driver.DHT22Driver"),
    ("BMP280Driver", "app.sensors.bmp280_driver.BMP280Driver") ]

/-- `SensorManager.add_sensor`: under the lock, reject when uninitialized, when
the id (config.name) is already registered, or when the driver name is unknown;
then construct, initialize and connect, returning `false` with the state
untouched on any failure; register and return `true` on success. -/
def add_sensor (env : AddSensorEnv) (st : ManagerState) (config : SensorConfig) :
    Bool × ManagerState :=
  if !st.is_initialized then (false, st)
  else
    let sensor_id := config.name
    if (alist_lookup st.sensors sensor_id).isSome then (false, st)
    else
      match alist_lookup manager_driver_map config.driver with
      | none => (false, st)
      | some _ =>
        if !env.construct_ok then (false, st)
        else if !env.initialize_ok then (false, st)
        else if !env.connect_ok then (false, st)
        else (true, { st with sensors := st.sensors ++ [(sensor_id, config)] })

/-- `SensorManager.remove_sensor` body (under the lock): unknown id → `false`;
a raising `disconnect()` is caught → `false` with the sensor still registered;
otherwise delete the entry and return `true`. -/
def remove_sensor (disconnect_raises : Bool) (st : ManagerState) (sensor_id : String) :
    Bool × ManagerState :=
  match alist_lookup st.sensors sensor_id with
  | none => (false, st)
  | some _ =>
    if disconnect_raises then (false, st)
    else (true, { st with sensors := alist_erase st.sensors sensor_id })

/-- Errors raised by `SensorManager.start_measurement`. -/
inductive StartError
  | session_exists (session_id : String)
  | sensor_not_found (sensor_id : String)
deriving DecidableEq, Repr

/-- The first sensor id in the list that is not registered (the validation loop
raises at the first missing one). -/
def first_missing_sensor (st : ManagerState) (sensor_ids : List String) : Option String :=
  sensor_ids.find? (fun sid => (alist_lookup st.sensors sid).isNone)

/-- `SensorManager.start_measurement` (under the lock): duplicate session id →
ValueError; any unregistered sensor id → ValueError, raised before the session is
created, so the session map is untouched and no task is started; otherwise the
session is created with status IDLE, stored, and its polling task is created
(`has_task`). -/
def start_measurement (st : ManagerState) (session_id : String)
    (sensor_ids : List String) (interval : ℚ) (duration : Option ℚ) :
    Except StartError MeasurementSession × ManagerState :=
  if (alist_lookup st.sessions session_id).isSome then
    (.error (.session_exists session_id), st)
  else
    match first_missing_sensor st sensor_ids with
    | some sid => (.error (.sensor_not_found sid), st)
    | none =>
      let session : MeasurementSession :=
        { session_id := session_id, sensor_ids := sensor_ids, interval := interval,
          duration := duration, status := .idle, has_task := true }
      (.ok session, { st with sessions := st.sessions ++ [(session_id, session)] })

/-- The `except asyncio.CancelledError` handler of
`SensorManager._measurement_loop`: status becomes STOPPING (never COMPLETED) and
the end time is recorded. -/
def cancel_session (s : MeasurementSession) (now : Nat) : MeasurementSession :=
  { s with status := .stopping, end_time := some now }

/-- Whether cancelling the session's task interrupts the loop coroutine: only a
task whose loop has begun and is still looping observes the cancellation (a task
cancelled before its coroutine first runs never executes the handler). -/
def session_task_live (s : MeasurementSession) : Bool :=
  s.has_task && (s.status == .starting || s.status == .running)

/-- `SensorManager.stop_measurement` (under the lock): unknown session id →
`false`; otherwise cancel the task and await it (draining runs the CancelledError
handler when the loop was live), then return `true`.  The session is NOT removed
from the session map. -/
def stop_measurement (st : ManagerState) (session_id : String) (now : Nat) :
    Bool × ManagerState :=
  match alist_lookup st.sessions session_id with
  | none => (false, st)
  | some s =>
    let s' := if session_task_live s then cancel_session s now else s
    (true, { st with sessions := alist_update st.sessions session_id s' })

/-- `SensorManager.list_sessions`: the dict of every session (live set), as
snapshots. -/
def list_sessions (st : ManagerState) : List MeasurementSession :=
  st.sessions.map (fun p => p.2)

/-- Awaiting `self._lock.acquire()` while the same task already holds the lock:
`asyncio.Lock` is not reentrant, so the acquire never completes. -/
inductive LockFailure
  | deadlock
deriving DecidableEq, Repr

/-- `stop_measurement` as invoked with the manager lock already held by the
caller's task: its own `async with self._lock` blocks forever. -/
def stop_measurement_locked (lock_held : Bool) (st : ManagerState)
    (session_id : String) (now : Nat) : Except LockFailure (Bool × ManagerState) :=
  if lock_held then .error .deadlock
  else .ok (stop_measurement st session_id now)

/-- `remove_sensor` as invoked with the manager lock already held by the caller's
task. -/
def remove_sensor_locked (lock_held : Bool) (disconnect_raises : Bool)
    (st : ManagerState) (sensor_id : String) : Except LockFailure (Bool × ManagerState) :=
  if lock_held then .error .deadlock
  else .ok (remove_sensor disconnect_raises st sensor_id)

/-- `SensorManager.shutdown`: takes the lock, then for each live session awaits
`self.stop_measurement(session_id)`, for each sensor awaits
`self.remove_sensor(sensor_id)`, cleans up the board, clears the initialization
flag and returns `true` (a raising board cleanup is caught and returns `false`).
Both inner calls re-acquire the same non-reentrant lock, modelled by passing
`lock_held = true`. -/
def shutdown (st : ManagerState) (now : Nat) (disconnect_raises : String → Bool)
    (board_cleanup_raises : Bool) : Except LockFailure (Bool × ManagerState) := do
  let st1 ← (st.sessions.map Prod.fst).foldlM
    (fun acc sid => do
      let r ← stop_measurement_locked true acc sid now
      pure r.2) st
  let st2 ← (st1.sensors.map Prod.fst).foldlM
    (fun acc sid => do
      let r ← remove_sensor_locked true (disconnect_raises sid) acc sid
      pure r.2) st1
  if st2.board_present && board_cleanup_raises then
    pure (false, st2)
  else
    pure (true, { st2 with is_initialized := false })

/-- The accumulation loop in the try block of `_measurement_loop`: extend
`all_readings` with each sensor's batch; the first raising read aborts the
block. -/
def collect_readings :
    List (Except ReadError (List SensorReading)) → Except ReadError (List SensorReading)
  | [] => .ok []
  | r :: rest =>
    match r with
    | .error e => .error e
    | .ok l =>
      match collect_readings rest with
      | .ok ls => .ok (l ++ ls)
      | .error e => .error e

/-- One iteration of the `while` body of `_measurement_loop`: when every read in
the round succeeds, `readings_count` grows by the total batch length (and the
batch is broadcast); when any read raises, the exception is swallowed and
`error_count` grows by one, `readings_count` untouched. -/
def measurement_iteration (session : MeasurementSession)
    (read_results : List (Except ReadError (List SensorReading))) : MeasurementSession :=
  match collect_readings read_results with
  | .ok all_readings =>
    { session with readings_count := session.readings_count + all_readings.length }
  | .error _ =>
    { session with error_count := session.error_count + 1 }

/-- `WebSocketManager` state: session id → set of subscriber handles (handles
modelled as naturals, the set as a duplicate-free list whose operations use set
semantics). -/
structure WSState where
  connections : List (String × List Nat) := []
deriving DecidableEq, Repr

/-- `WebSocketManager.disconnect` (under the hub lock): when the session id has an
entry, `discard` the handle from its set and, if the set went empty, delete the
session's entry from the dict. -/
def ws_disconnect (st : WSState) (websocket : Nat) (session_id : String) : WSState :=
  match alist_lookup st.connections session_id with
  | none => st
  | some conns =>
    let conns' := conns.filter (fun w => decide (w ≠ websocket))
    if conns'.isEmpty then
      { connections := alist_erase st.connections session_id }
    else
      { connections := alist_update st.connections session_id conns' }

lemma lookup_alist_update_self {α : Type} (m : List (String × α)) (k : String) (v : α) :
    alist_lookup (alist_update m k v) k =
      if (alist_lookup m k).isSome then some v else none := by
  induction m with
  | nil => simp [alist_update, alist_lookup]
  | cons p rest ih =>
    simp only [alist_update, List.map_cons] at ih ⊢
    by_cases h : p.1 = k
    · simp [alist_lookup, h]
    · simpa [alist_lookup, h] using ih

lemma lookup_alist_update_ne {α : Type} (m : List (String × α)) (k k' : String) (v : α)
    (h : k' ≠ k) : alist_lookup (alist_update m k v) k' = alist_lookup m k' := by
  induction m with
  | nil => simp [alist_update, alist_lookup]
  | cons p rest ih =>
    simp only [alist_update, List.map_cons] at ih ⊢
    by_cases hp : p.1 = k
    · simp only [if_pos hp, alist_lookup]
      rw [if_neg (Ne.symm h), if_neg (by rw [hp]; exact Ne.symm h)]
      exact ih
    · simp only [if_neg hp, alist_lookup]
      by_cases hp' : p.1 = k'
      · simp [hp']
      · simp only [if_neg hp']
        exact ih

lemma lookup_alist_erase_self {α : Type} (m : List (String × α)) (k : String) :
    alist_lookup (alist_erase m k) k = none := by
  induction m with
  | nil => simp [alist_erase, alist_lookup]
  | cons p rest ih =>
    simp only [alist_erase, List.filter_cons] at ih ⊢
    by_cases hp : p.1 = k
    · simpa [hp] using ih
    · simpa [alist_lookup, hp] using ih

lemma lookup_alist_erase_ne {α : Type} (m : List (String × α)) (k k' : String)
    (h : k' ≠ k) : alist_lookup (alist_erase m k) k' = alist_lookup m k' := by
  induction m with
  | nil => simp [alist_erase, alist_lookup]
  | cons p rest ih =>
    simp only [alist_erase, List.filter_cons] at ih ⊢
    by_cases hp : p.1 = k
    · rw [if_neg (by simp [hp])]
      rw [ih]
      simp only [alist_lookup]
      rw [if_neg (by rw [hp]; exact Ne.symm h)]
    · rw [if_pos (by simp [hp])]
      simp only [alist_lookup]
      by_cases hp' : p.1 = k'
      · simp [hp']
      · simp only [if_neg hp']
        exact ih

lemma lookup_isSome_alist_update {α : Type} (m : List (String × α)) (k k' : String) (v : α) :
    (alist_lookup (alist_update m k v) k').isSome = (alist_lookup m k').isSome := by
  by_cases h : k' = k
  · subst h
    rw [lookup_alist_update_self]
    cases hm : (alist_lookup m k').isSome <;> simp [hm]
  · rw [lookup_alist_update_ne _ _ _ _ h]

lemma lookup_alist_append_right {α : Type} (m : List (String × α)) (k : String) (v : α)
    (h : alist_lookup m k = none) : alist_lookup (m ++ [(k, v)]) k = some v := by
  induction m with
  | nil => simp [alist_lookup]
  | cons p rest ih =>
    simp only [alist_lookup] at h ⊢
    by_cases hp : p.1 = k
    · simp [hp] at h
    · simp only [if_neg hp] at h ⊢
      exact ih h

lemma round_to_eq_of_int (d : Nat) (v : ℚ) (n : ℤ) (h : v * (10 : ℚ) ^ d = (n : ℚ)) :
    round_to d v = (n : ℚ) / (10 : ℚ) ^ d := by
  unfold round_to
  rw [h, round_intCast]

/-- C4 counterexample: the claim says calibration maps v to `(v + o) * m` (offset
first).  With offset 1 and multiplier 2 for entity `e`, the code maps 1 to
`1 * 2 + 1 = 3`, while `(1 + 1) * 2 = 4`. -/
theorem apply_calibration_order_counterexample :
    apply_calibration
      { name := "s", driver := "DHT22",
        calibration := some [("e_offset", 1), ("e_multiplier", 2)] } 1 "e" = 3 ∧
    ((1 : ℚ) + 1) * 2 = 4 ∧ (3 : ℚ) ≠ 4 := by
  refine ⟨?_, by norm_num, by norm_num⟩
  have h1 : alist_lookup [("e_offset", (1 : ℚ)), ("e_multiplier", 2)] ("e" ++ "_offset")
      = some 1 := rfl
  have h2 : alist_lookup [("e_offset", (1 : ℚ)), ("e_multiplier", 2)] ("e" ++ "_multiplier")
      = some 2 := rfl
  simp only [apply_calibration, h1, h2, List.isEmpty_cons, Option.getD_some]
  norm_num

/-- C4 amended: when the calibration map defines offset `o` and multiplier `m`
for entity id `e`, `apply_calibration` maps `v` to `(v * m) + o` — multiplier
first, then offset — and is the identity when no calibration map is set. -/
theorem apply_calibration_amended :
    (∀ (config : SensorConfig) (v : ℚ) (entity_id : String)
        (cal : List (String × ℚ)) (o m : ℚ),
      config.calibration = some cal →
      alist_lookup cal (entity_id ++ "_offset") = some o →
      alist_lookup cal (entity_id ++ "_multiplier") = some m →
      apply_calibration config v entity_id = v * m + o) ∧
    (∀ (config : SensorConfig) (v : ℚ) (entity_id : String),
      config.calibration = none → apply_calibration config v entity_id = v) := by
  constructor
  · intro config v entity_id cal o m hcal ho hm
    unfold apply_calibration
    rw [hcal]
    have hne : cal.isEmpty = false := by
      cases cal with
      | nil => simp [alist_lookup] at ho
      | cons p rest => simp
    simp [hne, ho, hm]
  · intro config v entity_id hcal
    unfold apply_calibration
    rw [hcal]

/-- C4 amended, witness at a concrete calibration map. -/
theorem apply_calibration_amended_witness :
    apply_calibration
      { name := "s", driver := "DHT22",
        calibration := some [("e_offset", 1), ("e_multiplier", 2)] } 5 "e" =
      5 * 2 + 1 ∧
    apply_calibration { name := "s", driver := "DHT22" } 5 "e" = 5 := by
  constructor
  · exact apply_calibration_amended.1 _ 5 "e" [("e_offset", 1), ("e_multiplier", 2)]
      1 2 rfl rfl rfl
  · exact apply_calibration_amended.2 _ 5 "e" rfl

/-- C2 counterexample: the generic dummy driver clamps the raw value into the
entity range (rather than dropping), then applies calibration afterwards, so with
a multiplier of 2 on the temperature entity the returned batch contains a reading
of 160 for an entity whose declared maximum is 80 — out of bounds and not
dropped. -/
theorem dummy_read_out_of_bounds_counterexample :
    ∃ batch,
      dummy_read true
        { name := "s", driver := "DHT22",
          connection_params := [("sensor_model", "DHT22")],
          calibration := some [("s_temperature_multiplier", 2)] }
        (dummy_entities "s" "DHT22") (fun _ => 100) (fun _ => 1) = .ok batch ∧
      ∃ r ∈ batch, ∃ e ∈ dummy_entities "s" "DHT22",
        e.id = r.entity_id ∧ e.max_value = some 80 ∧ 80 < r.value := by
  have hents : dummy_entities "s" "DHT22" =
      [ { id := "s_temperature", name := "Temperature", unit := "°C",
          sensor_type := .temperature, min_value := some (-40), max_value := some 80,
          precision := 1 },
        { id := "s_humidity", name := "Humidity", unit := "%",
          sensor_type := .humidity, min_value := some 0, max_value := some 100,
          precision := 1 } ] := rfl
  have hclampT : clamp_to_entity_range
      { id := "s_temperature", name := "Temperature", unit := "°C",
        sensor_type := .temperature, min_value := some (-40), max_value := some 80,
        precision := 1 } 100 = 80 := by
    simp only [clamp_to_entity_range]
    norm_num
  have hclampH : clamp_to_entity_range
      { id := "s_humidity", name := "Humidity", unit := "%",
        sensor_type := .humidity, min_value := some 0, max_value := some 100,
        precision := 1 } 100 = 100 := by
    simp only [clamp_to_entity_range]
    norm_num
  have hcalT : apply_calibration
      { name := "s", driver := "DHT22",
        connection_params := [("sensor_model", "DHT22")],
        calibration := some [("s_temperature_multiplier", 2)] } 80 "s_temperature"
      = 160 := by
    have h1 : alist_lookup [("s_temperature_multiplier", (2 : ℚ))]
        ("s_temperature" ++ "_offset") = none := rfl
    have h2 : alist_lookup [("s_temperature_multiplier", (2 : ℚ))]
        ("s_temperature" ++ "_multiplier") = some 2 := rfl
    simp only [apply_calibration, h1, h2, List.isEmpty_cons, Option.getD_none,
      Option.getD_some]
    norm_num
  have hcalH : apply_calibration
      { name := "s", driver := "DHT22",
        connection_params := [("sensor_model", "DHT22")],
        calibration := some [("s_temperature_multiplier", 2)] } 100 "s_humidity"
      = 100 := by
    have h1 : alist_lookup [("s_temperature_multiplier", (2 : ℚ))]
        ("s_humidity" ++ "_offset") = none := rfl
    have h2 : alist_lookup [("s_temperature_multiplier", (2 : ℚ))]
        ("s_humidity" ++ "_multiplier") = none := rfl
    simp only [apply_calibration, h1, h2, List.isEmpty_cons, Option.getD_none,
      Option.getD_some]
    norm_num
  have hr160 : round_to 1 (160 : ℚ) = 160 := by
    rw [round_to_eq_of_int 1 160 1600 (by norm_num)]
    norm_num
  have hr100 : round_to 1 (100 : ℚ) = 100 := by
    rw [round_to_eq_of_int 1 100 1000 (by norm_num)]
    norm_num
  refine ⟨[ { entity_id := "s_temperature", value := 160, quality := 1 },
            { entity_id := "s_humidity", value := 100, quality := 1 } ], ?_,
    { entity_id := "s_temperature", value := 160, quality := 1 },
    List.mem_cons_self _ _,
    { id := "s_temperature", name := "Temperature", unit := "°C",
      sensor_type := .temperature, min_value := some (-40), max_value := some 80,
      precision := 1 },
    by rw [hents]; exact List.mem_cons_self _ _, rfl, rfl, by norm_num⟩
  simp only [dummy_read, Bool.not_true, Bool.false_eq_true, if_false,
    dummy_read_batch, hents, List.map_cons, List.map_nil]
  rw [hclampT, hclampH, hcalT, hcalH, hr160, hr100]

/-- C2 amended: the DHT22 driver bounds-validates its success-path batch and
drops out-of-bounds readings; the generic dummy driver instead clamps the raw
value into the entity range before calibration and never drops a reading (batch
length equals entity count), so when calibration is not the identity the returned
value may lie outside the entity bounds. -/
theorem read_bounds_policy_amended :
    (∀ (config : SensorConfig) (entities : List SensorEntity) (t h : ℚ)
        (batch : List SensorReading) (r : SensorReading) (e : SensorEntity),
      dht22_read true config entities (.values (some t) (some h)) = .ok batch →
      r ∈ batch →
      entities.find? (fun e2 => e2.id == r.entity_id) = some e →
      (∀ m, e.min_value = some m → m ≤ r.value) ∧
      (∀ M, e.max_value = some M → r.value ≤ M)) ∧
    (∀ (e : SensorEntity) (v M : ℚ), e.max_value = some M →
      clamp_to_entity_range e v ≤ M) ∧
    (∀ (e : SensorEntity) (v m : ℚ), e.min_value = some m →
      (∀ M, e.max_value = some M → m ≤ M) →
      m ≤ clamp_to_entity_range e v) ∧
    (∀ (config : SensorConfig) (entities : List SensorEntity)
        (raw quality : String → ℚ),
      (dummy_read_batch config entities raw quality).length = entities.length) := by
  refine ⟨?_, ?_, ?_, ?_⟩
  · intro config entities t h batch r e hbatch hr hfind
    simp only [dht22_read, Bool.not_true, Bool.false_eq_true, if_false] at hbatch
    have hbatch' := Except.ok.inj hbatch
    rw [← hbatch'] at hr
    have hval : validate_reading entities r = true :=
      (List.mem_filter.mp hr).2
    unfold validate_reading at hval
    rw [hfind] at hval
    simp only [Bool.and_eq_true, Bool.not_eq_true'] at hval
    constructor
    · intro m hm
      rw [hm] at hval
      have := hval.1
      simp only [decide_eq_false_iff_not, not_lt] at this
      exact this
    · intro M hM
      rw [hM] at hval
      have := hval.2
      simp only [decide_eq_false_iff_not, not_lt] at this
      exact this
  · intro e v M hM
    unfold clamp_to_entity_range
    rw [hM]
    cases e.min_value <;> simp
  · intro e v m hm hmM
    unfold clamp_to_entity_range
    rw [hm]
    cases hMv : e.max_value with
    | none => simp
    | some M =>
      simp only []
      exact le_min (le_max_right v m) (hmM M hMv)
  · intro config entities raw quality
    simp [dummy_read_batch]

/-- C2 amended, witness: a concrete DHT22 success batch passes its bounds, the
dummy clamp respects a concrete max, and a concrete dummy batch keeps every
entity. -/
theorem read_bounds_policy_amended_witness :
    ((-40 : ℚ) ≤ 25 ∧ (25 : ℚ) ≤ 80) ∧
    clamp_to_entity_range
      { id := "x", name := "X", unit := "", sensor_type := .analog,
        min_value := some 0, max_value := some 5, precision := 3 } 9 ≤ 5 ∧
    (0 : ℚ) ≤ clamp_to_entity_range
      { id := "x", name := "X", unit := "", sensor_type := .analog,
        min_value := some 0, max_value := some 5, precision := 3 } 9 ∧
    (dummy_read_batch { name := "s", driver := "DHT22" }
      (dummy_entities "s" "DHT22") (fun _ => 20) (fun _ => 1)).length = 2 := by
  have hr25 : round_to 1 (25 : ℚ) = 25 := by
    rw [round_to_eq_of_int 1 25 250 (by norm_num)]
    norm_num
  have hr50 : round_to 1 (50 : ℚ) = 50 := by
    rw [round_to_eq_of_int 1 50 500 (by norm_num)]
    norm_num
  have hfT : (dht22_entities "s").find?
      (fun e2 => e2.id == ("s_temperature" : String)) =
      some { id := "s_temperature", name := "Temperature", unit := "°C",
             sensor_type := .temperature, min_value := some (-40),
             max_value := some 80, precision := 1 } := rfl
  have hvT : validate_reading (dht22_entities "s")
      { entity_id := "s_temperature", value := 25, quality := 1 } = true := by
    unfold validate_reading
    rw [hfT]
    norm_num
  have hvH : validate_reading (dht22_entities "s")
      { entity_id := "s_humidity", value := 50, quality := 1 } = true := by
    have hfH : (dht22_entities "s").find?
        (fun e2 => e2.id == ("s_humidity" : String)) =
        some { id := "s_humidity", name := "Humidity", unit := "%",
               sensor_type := .humidity, min_value := some 0,
               max_value := some 100, precision := 1 } := rfl
    unfold validate_reading
    rw [hfH]
    norm_num
  have hbatch : dht22_read true { name := "s", driver := "DHT22Driver" }
      (dht22_entities "s") (.values (some 25) (some 50)) =
      .ok [ { entity_id := "s_temperature", value := 25, quality := 1 },
            { entity_id := "s_humidity", value := 50, quality := 1 } ] := by
    have hstep : dht22_read true {name := "s", driver := "DHT22Driver"}
        (dht22_entities "s") (.values (some 25) (some 50)) =
        Except.ok (List.filter (fun r => validate_reading (dht22_entities "s") r)
          [ { entity_id := "s_temperature", value := round_to 1 25, quality := 1 },
            { entity_id := "s_humidity", value := round_to 1 50, quality := 1 } ]) := rfl
    rw [hstep, hr25, hr50]
    simp only [List.filter_cons, List.filter_nil, hvT, hvH, if_true]
  refine ⟨?_, ?_, ?_, ?_⟩
  · exact (read_bounds_policy_amended.1 { name := "s", driver := "DHT22Driver" }
      (dht22_entities "s") 25 50 _
      { entity_id := "s_temperature", value := 25, quality := 1 }
      { id := "s_temperature", name := "Temperature", unit := "°C",
        sensor_type := .temperature, min_value := some (-40), max_value := some 80,
        precision := 1 }
      hbatch (List.mem_cons_self _ _) hfT).imp
      (fun h1 => h1 (-40) rfl) (fun h2 => h2 80 rfl)
  · exact read_bounds_policy_amended.2.1 _ 9 5 rfl
  · exact read_bounds_policy_amended.2.2.1 _ 9 0 rfl
      (fun M hM => by injection hM with hM5; rw [← hM5]; norm_num)
  · exact read_bounds_policy_amended.2.2.2 _ _ _ _

lemma snd_mem_of_alist_lookup {α : Type} (m : List (String × α)) (k : String) (v : α)
    (h : alist_lookup m k = some v) : v ∈ m.map (fun p => p.2) := by
  induction m with
  | nil => simp [alist_lookup] at h
  | cons p rest ih =>
    simp only [alist_lookup] at h
    by_cases hp : p.1 = k
    · rw [if_pos hp] at h
      injection h with h
      simp [h]
    · rw [if_neg hp] at h
      simp [ih h]

/-- C3 counterexample: stopping a running session leaves it with status STOPPING,
not COMPLETED — the CancelledError handler of the measurement loop records
STOPPING as the final status. -/
theorem stop_measurement_status_counterexample :
    ((alist_lookup (stop_measurement
        { is_initialized := true,
          sessions := [("s1",
            { session_id := "s1", sensor_ids := ["room"], status := .running,
              start_time := some 3, has_task := true })] }
        "s1" 5).2.sessions "s1").map (fun s => s.status)) = some .stopping ∧
    MeasurementStatus.stopping ≠ MeasurementStatus.completed := by
  exact ⟨rfl, by decide⟩

/-- C3 amended: a stop request on a running session cancels its task and the
session ends in the terminal status STOPPING (recorded by the cancellation
handler, never advanced further), with end_time recorded and, under a monotone
clock, end_time ≥ start_time. -/
theorem stop_measurement_stopping_amended :
    ∀ (st : ManagerState) (session_id : String) (s : MeasurementSession) (now ts : Nat),
      alist_lookup st.sessions session_id = some s →
      s.status = .running → s.has_task = true →
      s.start_time = some ts → ts ≤ now →
      (stop_measurement st session_id now).1 = true ∧
      ∃ s', alist_lookup (stop_measurement st session_id now).2.sessions session_id
          = some s' ∧
        s'.status = .stopping ∧ s'.end_time = some now ∧
        s'.start_time = some ts ∧ ts ≤ now := by
  intro st session_id s now ts hlook hrun htask hstart hle
  have hlive : session_task_live s = true := by
    simp [session_task_live, htask, hrun]
  refine ⟨?_, cancel_session s now, ?_, rfl, rfl, ?_, hle⟩
  · simp [stop_measurement, hlook]
  · simp only [stop_measurement, hlook, hlive, if_true]
    rw [lookup_alist_update_self]
    simp [hlook]
  · simpa [cancel_session] using hstart

/-- C3 amended, witness at a concrete running session. -/
theorem stop_measurement_stopping_amended_witness :
    (stop_measurement
      { is_initialized := true,
        sessions := [("s1",
          { session_id := "s1", sensor_ids := ["room"], status := .running,
            start_time := some 3, has_task := true })] } "s1" 5).1 = true ∧
    ∃ s', alist_lookup (stop_measurement
        { is_initialized := true,
          sessions := [("s1",
            { session_id := "s1", sensor_ids := ["room"], status := .running,
              start_time := some 3, has_task := true })] } "s1" 5).2.sessions "s1"
        = some s' ∧
      s'.status = .stopping ∧ s'.end_time = some 5 ∧
      s'.start_time = some 3 ∧ 3 ≤ 5 :=
  stop_measurement_stopping_amended
    { is_initialized := true,
      sessions := [("s1",
        { session_id := "s1", sensor_ids := ["room"], status := .running,
          start_time := some 3, has_task := true })] }
    "s1"
    { session_id := "s1", sensor_ids := ["room"], status := .running,
      start_time := some 3, has_task := true }
    5 3 rfl rfl rfl rfl (by norm_num)

/-- C8 counterexample: a successful stop does NOT remove the session from the
sessions map — the id is still a member of the live set afterwards. -/
theorem stop_measurement_keeps_session_counterexample :
    (stop_measurement
      { is_initialized := true,
        sessions := [("s8",
          { session_id := "s8", sensor_ids := ["room"], status := .running,
            start_time := some 2, has_task := true })] } "s8" 9).1 = true ∧
    (alist_lookup (stop_measurement
        { is_initialized := true,
          sessions := [("s8",
            { session_id := "s8", sensor_ids := ["room"], status := .running,
              start_time := some 2, has_task := true })] } "s8" 9).2.sessions
      "s8").isSome = true := by
  exact ⟨rfl, rfl⟩

/-- C8 amended: after a successful stop the session REMAINS in the sessions map
(the live set); its terminal snapshot stays retrievable via list_sessions — the
code has no removal or purge of stopped sessions. -/
theorem stop_measurement_session_retained_amended :
    ∀ (st : ManagerState) (session_id : String) (now : Nat),
      (stop_measurement st session_id now).1 = true →
      (alist_lookup (stop_measurement st session_id now).2.sessions
        session_id).isSome = true ∧
      ∀ s', alist_lookup (stop_measurement st session_id now).2.sessions session_id
          = some s' →
        s' ∈ list_sessions (stop_measurement st session_id now).2 := by
  intro st session_id now hok
  cases hl : alist_lookup st.sessions session_id with
  | none =>
    exfalso
    simp [stop_measurement, hl] at hok
  | some s =>
    have hres : (stop_measurement st session_id now).2.sessions =
        alist_update st.sessions session_id
          (if session_task_live s then cancel_session s now else s) := by
      simp [stop_measurement, hl]
    constructor
    · rw [hres, lookup_alist_update_self]
      simp [hl]
    · intro s' hs'
      rw [hres] at hs'
      exact snd_mem_of_alist_lookup _ _ _ (by rw [hres]; exact hs')

/-- C8 amended, witness at a concrete stopped session. -/
theorem stop_measurement_session_retained_amended_witness :
    (alist_lookup (stop_measurement
        { is_initialized := true,
          sessions := [("s8",
            { session_id := "s8", sensor_ids := ["room"], status := .running,
              start_time := some 2, has_task := true })] } "s8" 9).2.sessions
      "s8").isSome = true ∧
    cancel_session
      { session_id := "s8", sensor_ids := ["room"], status := .running,
        start_time := some 2, has_task := true } 9 ∈
      list_sessions (stop_measurement
        { is_initialized := true,
          sessions := [("s8",
            { session_id := "s8", sensor_ids := ["room"], status := .running,
              start_time := some 2, has_task := true })] } "s8" 9).2 := by
  have H := stop_measurement_session_retained_amended
    { is_initialized := true,
      sessions := [("s8",
        { session_id := "s8", sensor_ids := ["room"], status := .running,
          start_time := some 2, has_task := true })] } "s8" 9 rfl
  exact ⟨H.1, H.2 _ rfl⟩

/-- C6: adding a sensor whose id (config.name) is already registered returns the
failure result and leaves the manager state — in particular the sensor registry
and the existing instance — completely unchanged, for every environment (so no
construction, re-initialization, or connection is even attempted). -/
theorem add_sensor_duplicate_rejected :
    ∀ (env : AddSensorEnv) (st : ManagerState) (config : SensorConfig),
      (alist_lookup st.sensors config.name).isSome = true →
      add_sensor env st config = (false, st) := by
  intro env st config h
  unfold add_sensor
  cases hinit : st.is_initialized with
  | false => simp
  | true => simp [h]

/-- C6, witness at a concrete duplicate registration. -/
theorem add_sensor_duplicate_rejected_witness :
    add_sensor { construct_ok := true, initialize_ok := true, connect_ok := true }
      { is_initialized := true,
        sensors := [("room", { name := "room", driver := "DHT22Driver" })] }
      { name := "room", driver := "DHT22Driver", poll_interval := 2 } =
    (false,
      { is_initialized := true,
        sensors := [("room", { name := "room", driver := "DHT22Driver" })] }) :=
  add_sensor_duplicate_rejected _ _ _ rfl

/-- C7: starting a session (with a fresh session id) whose sensor list contains
at least one unregistered id fails with the sensor-not-found error and creates
no partial state: the manager state (sessions map included) is unchanged and no
polling task is started, the error naming an unregistered id from the list. -/
theorem start_measurement_missing_sensor :
    ∀ (st : ManagerState) (session_id : String) (sensor_ids : List String)
      (interval : ℚ) (duration : Option ℚ),
      alist_lookup st.sessions session_id = none →
      (∃ sid ∈ sensor_ids, alist_lookup st.sensors sid = none) →
      (start_measurement st session_id sensor_ids interval duration).2 = st ∧
      ∃ missing,
        (start_measurement st session_id sensor_ids interval duration).1
          = .error (.sensor_not_found missing) ∧
        missing ∈ sensor_ids ∧ alist_lookup st.sensors missing = none := by
  intro st session_id sensor_ids interval duration hsess hmiss
  obtain ⟨sid, hmem, hnone⟩ := hmiss
  cases hfm : first_missing_sensor st sensor_ids with
  | none =>
    exfalso
    have := List.find?_eq_none.mp hfm sid hmem
    simp [hnone] at this
  | some missing =>
    have hp := List.find?_some hfm
    have hmm := List.mem_of_find?_eq_some hfm
    have hmnone : alist_lookup st.sensors missing = none := by
      simpa [Option.isNone_iff_eq_none] using hp
    constructor
    · simp [start_measurement, hsess, hfm]
    · exact ⟨missing, by simp [start_measurement, hsess, hfm], hmm, hmnone⟩

/-- C7, witness at a concrete unregistered sensor id. -/
theorem start_measurement_missing_sensor_witness :
    (start_measurement { is_initialized := true } "m1" ["ghost"] 1 none).2
      = { is_initialized := true } ∧
    (start_measurement { is_initialized := true } "m1" ["ghost"] 1 none).1
      = .error (.sensor_not_found "ghost") := by
  have H := start_measurement_missing_sensor { is_initialized := true } "m1"
    ["ghost"] 1 none rfl ⟨"ghost", List.mem_cons_self _ _, rfl⟩
  exact ⟨H.1, rfl⟩

/-- C5: shutdown deadlocks instead of performing its teardown whenever any live
session (or any registered sensor) exists: holding the manager's single
non-reentrant asyncio lock, it awaits stop_measurement / remove_sensor, which
block forever re-acquiring that same lock.  Only on an empty manager does
shutdown complete (returning success with the initialization flag cleared). -/
theorem shutdown_deadlock_on_live_session :
    shutdown
      { is_initialized := true, board_present := true,
        sessions := [("s1",
          { session_id := "s1", sensor_ids := ["room"], status := .running,
            start_time := some 3, has_task := true })] }
      7 (fun _ => false) false = .error .deadlock ∧
    shutdown
      { is_initialized := true, board_present := true,
        sensors := [("room", { name := "room", driver := "DHT22Driver" })] }
      7 (fun _ => false) false = .error .deadlock ∧
    shutdown { is_initialized := true } 7 (fun _ => false) false
      = .ok (true, { is_initialized := false }) := by
  exact ⟨rfl, rfl, rfl⟩

/-- C1: driver resolution is total — `create_sensor` returns a constructed
instance for every environment and configuration, never an error; whenever the
fallback is triggered (dummy mode forced, unknown driver name, or raising real
construction) the result is the dummy resolution, which yields the mapped
specific dummy driver when it constructs and otherwise the generic
DummySensorDriver, whose construction always succeeds. -/
theorem create_sensor_total :
    ∀ (env : FactoryEnv) (config : SensorConfig),
      (∃ inst, create_sensor env config = .ok inst) ∧
      (should_use_dummy env = true ∨
       alist_lookup sensor_driver_map config.driver = none ∨
       (∃ p, alist_lookup sensor_driver_map config.driver = some p ∧
             env.real_sensor_constructs p = false) →
       create_sensor env config = .ok (create_dummy_sensor env config)) ∧
      (∀ p, alist_lookup specific_dummy_map config.driver = some p →
        env.specific_dummy_constructs p = true →
        create_dummy_sensor env config = .specific_dummy p) ∧
      (∀ p, alist_lookup specific_dummy_map config.driver = some p →
        env.specific_dummy_constructs p = false →
        create_dummy_sensor env config =
          .generic_dummy (generic_sensor_model config)) ∧
      (alist_lookup specific_dummy_map config.driver = none →
        create_dummy_sensor env config =
          .generic_dummy (generic_sensor_model config)) := by
  intro env config
  refine ⟨?_, ?_, ?_, ?_, ?_⟩
  · unfold create_sensor
    by_cases hd : should_use_dummy env
    · exact ⟨create_dummy_sensor env config, by simp [hd]⟩
    · cases hl : alist_lookup sensor_driver_map config.driver with
      | none => exact ⟨create_dummy_sensor env config, by simp [hd, hl]⟩
      | some p =>
        by_cases hc : env.real_sensor_constructs p
        · exact ⟨.real p, by simp [hd, hl, attempt_real_sensor, hc]⟩
        · exact ⟨create_dummy_sensor env config,
            by simp [hd, hl, attempt_real_sensor, hc]⟩
  · intro htrig
    unfold create_sensor
    by_cases hd : should_use_dummy env
    · simp [hd]
    · rw [if_neg (by simp [hd])]
      rcases htrig with hd' | hl | ⟨p, hp, hfail⟩
      · exact absurd hd' hd
      · simp [hl]
      · simp [hp, attempt_real_sensor, hfail]
  · intro p hp hc
    simp [create_dummy_sensor, hp, hc]
  · intro p hp hc
    simp [create_dummy_sensor, hp, hc]
  · intro hp
    simp [create_dummy_sensor, hp]

/-- C1, witness: with real construction failing and the specific dummy
constructing, a DHT22 request resolves to the specific dummy driver. -/
theorem create_sensor_total_witness :
    create_sensor
      { use_dummy_drivers := false, platform_win32 := false,
        real_sensor_constructs := fun _ => false,
        specific_dummy_constructs := fun _ => true }
      { name := "s", driver := "DHT22" } =
      .ok (.specific_dummy "app.sensors.dht22_dummy_driver.DHT22DummyDriver") := by
  have H := create_sensor_total
    { use_dummy_drivers := false, platform_win32 := false,
      real_sensor_constructs := fun _ => false,
      specific_dummy_constructs := fun _ => true }
    { name := "s", driver := "DHT22" }
  rw [H.2.1 (Or.inr (Or.inr ⟨_, rfl, rfl⟩)), H.2.2.1 _ rfl rfl]

/-- C9: unsubscribing removes the handle from the session's subscriber set and,
when it was the last handle, deletes the session's entry from the map entirely —
after a disconnect the session id never maps to an empty subscriber set. -/
theorem ws_disconnect_removes_handle :
    ∀ (st : WSState) (websocket : Nat) (session_id : String),
      (∀ l, alist_lookup (ws_disconnect st websocket session_id).connections
          session_id = some l → websocket ∉ l ∧ l ≠ []) ∧
      (∀ l, alist_lookup st.connections session_id = some l →
        l.filter (fun w => decide (w ≠ websocket)) = [] →
        alist_lookup (ws_disconnect st websocket session_id).connections
          session_id = none) := by
  intro st websocket session_id
  cases h : alist_lookup st.connections session_id with
  | none =>
    have hid : ws_disconnect st websocket session_id = st := by
      simp only [ws_disconnect, h]
    constructor
    · intro l hl
      rw [hid, h] at hl
      simp at hl
    · intro l hl
      simp at hl
  | some conns =>
    cases he : (conns.filter (fun w => decide (w ≠ websocket))).isEmpty with
    | true =>
      have hres : (ws_disconnect st websocket session_id).connections =
          alist_erase st.connections session_id := by
        simp only [ws_disconnect, h]
        rw [if_pos he]
      constructor
      · intro l hl
        rw [hres, lookup_alist_erase_self] at hl
        simp at hl
      · intro l hl hfil
        rw [hres]
        exact lookup_alist_erase_self _ _
    | false =>
      have hres : (ws_disconnect st websocket session_id).connections =
          alist_update st.connections session_id
            (conns.filter (fun w => decide (w ≠ websocket))) := by
        simp only [ws_disconnect, h]
        rw [if_neg (by rw [he]; exact Bool.false_ne_true)]
      constructor
      · intro l hl
        rw [hres, lookup_alist_update_self, h] at hl
        simp only [Option.isSome_some, if_true] at hl
        injection hl with hl
        subst hl
        constructor
        · intro hmem
          exact (of_decide_eq_true (List.mem_filter.mp hmem).2) rfl
        · intro hnil
          rw [hnil] at he
          simp at he
      · intro l hl hfil
        injection hl with hl
        subst hl
        rw [hfil] at he
        simp at he

/-- C9, witness: disconnecting the last subscriber of a session deletes the
session's entry. -/
theorem ws_disconnect_removes_handle_witness :
    alist_lookup (ws_disconnect { connections := [("s1", [7])] } 7 "s1").connections
      "s1" = none := by
  have H := ws_disconnect_removes_handle { connections := [("s1", [7])] } 7 "s1"
  exact H.2 [7] rfl rfl

/-- C10: with the sensor connected, a transient device failure (RuntimeError, or
a None value from the device, which raises RuntimeError internally) does not
propagate from DHT22Driver.read: it returns one reading per entity with value
0.0 and quality 0.0, and a session-loop iteration consuming that batch
increments readings_count by the batch size and leaves error_count unchanged. -/
theorem dht22_transient_failure_soft :
    ∀ (config : SensorConfig) (entities : List SensorEntity)
      (t h : Option ℚ) (session : MeasurementSession),
      dht22_read true config entities .raise_runtime
        = .ok (dht22_fallback_readings config) ∧
      dht22_read true config entities (.values none h)
        = .ok (dht22_fallback_readings config) ∧
      dht22_read true config entities (.values t none)
        = .ok (dht22_fallback_readings config) ∧
      (dht22_fallback_readings config).length = 2 ∧
      (∀ r ∈ dht22_fallback_readings config, r.value = 0 ∧ r.quality = 0) ∧
      measurement_iteration session [dht22_read true config entities .raise_runtime]
        = { session with readings_count := session.readings_count + 2 } ∧
      (measurement_iteration session
        [dht22_read true config entities .raise_runtime]).error_count
        = session.error_count := by
  intro config entities t h session
  refine ⟨rfl, rfl, ?_, rfl, ?_, rfl, rfl⟩
  · cases t <;> rfl
  · intro r hr
    simp only [dht22_fallback_readings, List.mem_cons, List.mem_singleton] at hr
    rcases hr with hr | hr | hr
    · rw [hr]
      exact ⟨rfl, rfl⟩
    · rw [hr]
      exact ⟨rfl, rfl⟩
    · exact absurd hr (by simp)

/-- C10, witness at a concrete configuration and session. -/
theorem dht22_transient_failure_soft_witness :
    dht22_read true { name := "s", driver := "DHT22Driver" } (dht22_entities "s")
      .raise_runtime
      = .ok (dht22_fallback_readings { name := "s", driver := "DHT22Driver" }) ∧
    measurement_iteration
      { session_id := "m1", sensor_ids := ["s"], status := .running,
        readings_count := 4, error_count := 1, has_task := true }
      [dht22_read true { name := "s", driver := "DHT22Driver" }
        (dht22_entities "s") .raise_runtime]
      = { session_id := "m1", sensor_ids := ["s"], status := .running,
          readings_count := 6, error_count := 1, has_task := true } := by
  have H := dht22_transient_failure_soft { name := "s", driver := "DHT22Driver" }
    (dht22_entities "s") none none
    { session_id := "m1", sensor_ids := ["s"], status := .running,
      readings_count := 4, error_count := 1, has_task := true }
  exact ⟨H.1, H.2.2.2.2.2.1⟩

end PiSensor
